import Mathlib

/-!
Shallow embedding of the s3-layer dataset service (src/app/dataset.py,
src/app/model.py, src/app/db/models.py) together with the parts of the
Python runtime semantics the handlers rely on: JSON values and `json.loads`
(restricted to the integer-literal subset the repository exercises), Python
dict insertion-order semantics, `in` / item assignment / `pop` / iteration,
binary streams with a read position, and first-error loop semantics.

UUIDs are modelled as natural numbers supplied by the caller (one fresh
number per `uuid4()` call site); SHA-1 is modelled by a deterministic
computable digest function - every claim depends only on determinism of the
digest and on equality comparisons between digests, never on the actual
SHA-1 bit mixing.  Database rows keep the columns the claims mention;
server-filled timestamp columns are omitted.
-/

/-- A Python value produced by `json.loads`: null, bool, int, string, list,
dict.  Dicts are association lists in insertion order with no duplicate
keys (the parser and every dict operation preserve this, exactly like
CPython dicts). -/
inductive Json where
  | null : Json
  | bool (b : Bool) : Json
  | num (n : Int) : Json
  | str (s : String) : Json
  | arr (xs : List Json) : Json
  | obj (kvs : List (String × Json)) : Json

/-- `d.get(k)`-style lookup in a Python dict (first match; dicts carry no
duplicate keys). -/
def dictGet (d : List (String × Json)) (k : String) : Option Json :=
  (d.find? (fun kv => kv.1 == k)).map (fun kv => kv.2)

/-- `d[k] = v` on a Python dict: replace in place when the key exists,
append otherwise (CPython insertion-order semantics). -/
def dictSet (d : List (String × Json)) (k : String) (v : Json) :
    List (String × Json) :=
  if d.any (fun kv => kv.1 == k) then
    d.map (fun kv => if kv.1 == k then (k, v) else kv)
  else
    d ++ [(k, v)]

/-- `d.pop(k)` on a Python dict whose key is known present (the source only
pops after a membership test). -/
def dictPop (d : List (String × Json)) (k : String) : List (String × Json) :=
  d.filter (fun kv => kv.1 != k)

mutual

/-- Python `==` on JSON values: structural except for dicts, which compare
as unordered key/value maps. -/
def jsonEqb : Json → Json → Bool
  | .null, .null => true
  | .bool a, .bool b => a == b
  | .num a, .num b => a == b
  | .str a, .str b => a == b
  | .arr xs, .arr ys => jsonArrEqb xs ys
  | .obj xs, .obj ys => xs.length == ys.length && jsonObjLeb xs ys
  | _, _ => false

/-- Elementwise Python `==` on two lists. -/
def jsonArrEqb : List Json → List Json → Bool
  | [], [] => true
  | x :: xs, y :: ys => jsonEqb x y && jsonArrEqb xs ys
  | _, _ => false

/-- Every key/value pair of the first dict occurs in the second. -/
def jsonObjLeb : List (String × Json) → List (String × Json) → Bool
  | [], _ => true
  | kv :: rest, ys =>
    (match dictGet ys kv.1 with
     | some w => jsonEqb kv.2 w
     | none => false) && jsonObjLeb rest ys

end

/-- Whitespace skipping of the JSON lexer. -/
def skipWs : List Char → List Char
  | c :: cs =>
    if c = ' ' ∨ c = '\t' ∨ c = '\n' ∨ c = '\r' then skipWs cs else c :: cs
  | [] => []

/-- Scan a JSON string literal body up to the closing quote (the repository
only ever submits strings without escape sequences). -/
def parseStrAux : List Char → List Char → Option (String × List Char)
  | [], _ => none
  | '\"' :: rest, acc => some (String.mk acc.reverse, rest)
  | c :: rest, acc => parseStrAux rest (c :: acc)

/-- Scan a run of decimal digits. -/
def parseDigits : List Char → Nat → Nat × List Char
  | c :: cs, acc =>
    if c.isDigit then parseDigits cs (acc * 10 + (c.toNat - 48)) else (acc, c :: cs)
  | [], acc => (acc, [])

/-- Build a Python dict from parsed key/value pairs: later duplicates
overwrite in place, like the CPython JSON decoder. -/
def objFromPairs (pairs : List (String × Json)) : List (String × Json) :=
  pairs.foldl (fun d kv => dictSet d kv.1 kv.2) []

mutual

/-- Recursive-descent JSON value parser (fuelled; fuel is sized from the
input so it never runs out on inputs the repository sees).  Covers the
subset of JSON the service exchanges: null, booleans, integers, strings,
arrays, objects. -/
def parseVal : Nat → List Char → Option (Json × List Char)
  | 0, _ => none
  | Nat.succ fuel, cs =>
    match skipWs cs with
    | 'n' :: 'u' :: 'l' :: 'l' :: rest => some (.null, rest)
    | 't' :: 'r' :: 'u' :: 'e' :: rest => some (.bool true, rest)
    | 'f' :: 'a' :: 'l' :: 's' :: 'e' :: rest => some (.bool false, rest)
    | '\"' :: rest => (parseStrAux rest []).map (fun p => (.str p.1, p.2))
    | '[' :: rest =>
      (match skipWs rest with
       | ']' :: rest2 => some (.arr [], rest2)
       | rest2 => (parseArrItems fuel rest2).map (fun p => (.arr p.1, p.2)))
    | '\x7b' :: rest =>
      (match skipWs rest with
       | '\x7d' :: rest2 => some (.obj [], rest2)
       | rest2 =>
         (parseObjItems fuel rest2).map (fun p => (.obj (objFromPairs p.1), p.2)))
    | '-' :: c :: rest =>
      if c.isDigit then
        (fun p => some (Json.num (-(p.1 : Int)), p.2)) (parseDigits (c :: rest) 0)
      else none
    | c :: rest =>
      if c.isDigit then
        (fun p => some (Json.num (p.1 : Int), p.2)) (parseDigits (c :: rest) 0)
      else none
    | [] => none

/-- Comma-separated array items up to the closing bracket. -/
def parseArrItems : Nat → List Char → Option (List Json × List Char)
  | 0, _ => none
  | Nat.succ fuel, cs =>
    match parseVal fuel cs with
    | none => none
    | some (v, rest) =>
      match skipWs rest with
      | ',' :: rest2 => (parseArrItems fuel rest2).map (fun p => (v :: p.1, p.2))
      | ']' :: rest2 => some ([v], rest2)
      | _ => none

/-- Comma-separated `"key": value` members up to the closing brace. -/
def parseObjItems : Nat → List Char → Option (List (String × Json) × List Char)
  | 0, _ => none
  | Nat.succ fuel, cs =>
    match skipWs cs with
    | '\"' :: rest =>
      (match parseStrAux rest [] with
       | none => none
       | some (key, rest2) =>
         match skipWs rest2 with
         | ':' :: rest3 =>
           (match parseVal fuel rest3 with
            | none => none
            | some (v, rest4) =>
              match skipWs rest4 with
              | ',' :: rest5 =>
                (parseObjItems fuel rest5).map (fun p => ((key, v) :: p.1, p.2))
              | '\x7d' :: rest5 => some ([(key, v)], rest5)
              | _ => none)
         | _ => none)
    | _ => none

end

/-- `json.loads`: parse one value and require only trailing whitespace;
any failure is the `JSONDecodeError` case (`none`). -/
def json_loads (s : String) : Option Json :=
  let cs := s.toList
  match parseVal (2 * cs.length + 8) cs with
  | some (v, rest) => if skipWs rest = [] then some v else none
  | none => none

example : json_loads "null" = some Json.null := by rfl
example : json_loads "5" = some (Json.num 5) := by rfl
example : json_loads "[\x7b\"left\":3,\"top\":4\x7d]"
    = some (Json.arr [Json.obj [("left", Json.num 3), ("top", Json.num 4)]]) := by rfl
example : json_loads "[\x7b\"x\":3,\"y\":4\x7d]"
    = some (Json.arr [Json.obj [("x", Json.num 3), ("y", Json.num 4)]]) := by rfl
example : json_loads "invalid" = none := by rfl
example : json_loads "[]" = some (Json.arr []) := by rfl

/-- How a handler terminates abnormally: a FastAPI `HTTPException` with a
status code and detail string, or an uncaught Python runtime error
(`TypeError` from iterating/indexing an unsuitable value, SQLAlchemy
`MultipleResultsFound`, a missing S3 key surfacing as a boto error). -/
inductive PyError where
  | httpError (statusCode : Nat) (detail : String) : PyError
  | typeError (msg : String) : PyError
  | multipleResultsFound : PyError
  | s3NoSuchKey : PyError
deriving DecidableEq, Repr

/-- A binary upload stream (`file.file`): the full byte content plus the
current read position. -/
structure PyStream where
  data : List Nat
  pos : Nat
deriving DecidableEq, Repr

/-- The hashing loop of `dataset_upload_file`: read 64 KiB chunks until the
read comes back empty, feeding each chunk to the digest.  Its input is the
bytes from the current position; it returns the concatenation of the chunks
fed to `sha1.update`. -/
def sha1Chunks (remaining acc : List Nat) : List Nat :=
  if h : remaining = [] then acc
  else sha1Chunks (remaining.drop 65536) (acc ++ remaining.take 65536)
termination_by remaining.length
decreasing_by
  have hlen : remaining.length ≠ 0 := fun hl => h (List.eq_nil_of_length_eq_zero hl)
  simp only [List.length_drop]
  omega

/-- Deterministic stand-in for `hashlib.sha1(...).hexdigest()`.  Every claim
depends only on the digest being a deterministic function of the hashed
bytes compared by string equality, never on SHA-1 internals. -/
def sha1hex (bs : List Nat) : String :=
  String.mk (Nat.toDigits 16
    (bs.foldl (fun a b => (a * 131 + b % 256 + 1) % (2 ^ 160)) 7))

/-- Net effect of the hashing loop on the stream: the hashed bytes are those
from the current position, and the position ends at the end of the data. -/
def hashConsume (s : PyStream) : List Nat × PyStream :=
  (sha1Chunks (s.data.drop s.pos) [],
   { s with pos := s.pos + (s.data.drop s.pos).length })

/-- `upload_fileobj` / a full read: the bytes from the current position. -/
def pyReadAll (s : PyStream) : List Nat × PyStream :=
  (s.data.drop s.pos, { s with pos := s.data.length })

/-- Row of `dataset_objects` (timestamp columns omitted; no claim reads
them). -/
structure DatasetObjectRow where
  id : Nat
  name : String
  s3_object_name : String
  content_type : String
  file_hash_sha1 : String
deriving DecidableEq, Repr

/-- Row of `dataset_object_tags`. -/
structure DatasetObjectTagRow where
  id : Nat
  dataset_object_id : Nat
  tag : String
deriving DecidableEq, Repr

/-- Row of `dataset_object_labels`; `polygon` is stored as raw text. -/
structure DatasetObjectLabelRow where
  id : Nat
  dataset_object_id : Nat
  label : String
  polygon : String
deriving DecidableEq, Repr

/-- Row of `mlmodel_objects`. -/
structure MLModelObjectRow where
  id : Nat
  name : String
  s3_object_name : String
  content_type : String
deriving DecidableEq, Repr

/-- Row of `mlmodel_object_tags`. -/
structure MLModelObjectTagRow where
  id : Nat
  mlmodel_object_id : Nat
  tag : String
deriving DecidableEq, Repr

/-- The relational metadata store: one list per table, in insertion order
(SQL result order for the unordered selects the handlers run). -/
structure MetaStore where
  objects : List DatasetObjectRow
  tags : List DatasetObjectTagRow
  labels : List DatasetObjectLabelRow
  mlobjects : List MLModelObjectRow
  mltags : List MLModelObjectTagRow
deriving DecidableEq, Repr

/-- The S3 blob store: key/bytes pairs in creation order. -/
structure BlobStore where
  blobs : List (String × List Nat)
deriving DecidableEq, Repr

/-- `s3.get_object`: first (unique) entry under the key, or a boto error. -/
def blobGet (b : BlobStore) (key : String) : Except PyError (List Nat) :=
  match b.blobs.find? (fun kv => kv.1 == key) with
  | some kv => .ok kv.2
  | none => .error .s3NoSuchKey

/-- `s3.delete_object`: drop the key; deleting a missing key is a no-op. -/
def blobDelete (b : BlobStore) (key : String) : BlobStore :=
  { blobs := b.blobs.filter (fun kv => kv.1 != key) }

/-- SQLAlchemy `Result.one_or_none()`: none for an empty result, the row for
a singleton, `MultipleResultsFound` otherwise. -/
def oneOrNone {α : Type} : List α → Except PyError (Option α)
  | [] => .ok none
  | [x] => .ok (some x)
  | _ :: _ :: _ => .error .multipleResultsFound

/-- A Python `for` loop that transforms each element and aborts the whole
operation at the first raised error. -/
def eachOk {α β : Type} (f : α → Except PyError β) : List α → Except PyError (List β)
  | [] => .ok []
  | x :: xs =>
    match f x with
    | .error e => .error e
    | .ok y =>
      match eachOk f xs with
      | .error e => .error e
      | .ok ys => .ok (y :: ys)

/-- Python substring containment used by `key in string`. -/
def listStartsWith : List Char → List Char → Bool
  | _, [] => true
  | [], _ :: _ => false
  | h :: hs, n :: ns => h == n && listStartsWith hs ns

/-- `needle in hay` for character lists. -/
def hasSubAux : List Char → List Char → Bool
  | [], needle => needle.isEmpty
  | c :: rest, needle => listStartsWith (c :: rest) needle || hasSubAux rest needle

/-- Python `key in v`: dict key membership, substring test on strings,
elementwise `==` on lists, `TypeError` otherwise. -/
def py_in (key : String) (v : Json) : Except PyError Bool :=
  match v with
  | .obj kvs => .ok (kvs.any (fun kv => kv.1 == key))
  | .str s => .ok (hasSubAux s.toList key.toList)
  | .arr xs => .ok (xs.any (fun x => jsonEqb (.str key) x))
  | _ => .error (.typeError "argument of type is not iterable")

/-- Python `v[key]` on a value known to hold the key (`node["left"]` is only
evaluated after `"left" in node` succeeded); non-dicts raise. -/
def py_getitem (v : Json) (key : String) : Except PyError Json :=
  match v with
  | .obj kvs =>
    (match dictGet kvs key with
     | some w => .ok w
     | none => .error (.typeError "KeyError"))
  | _ => .error (.typeError "object is not subscriptable")

/-- Python `v[key] = x`; only dicts support item assignment. -/
def py_setitem (v : Json) (key : String) (x : Json) : Except PyError Json :=
  match v with
  | .obj kvs => .ok (.obj (dictSet kvs key x))
  | _ => .error (.typeError "object does not support item assignment")

/-- Python `v.pop(key)`; only dicts have `pop`. -/
def py_pop (v : Json) (key : String) : Except PyError Json :=
  match v with
  | .obj kvs => .ok (.obj (dictPop kvs key))
  | _ => .error (.typeError "object has no attribute pop")

/-- Python `for node in v`: lists yield elements, strings yield one-char
strings, dicts yield their keys; null / numbers / booleans raise
`TypeError`. -/
def py_iter (v : Json) : Except PyError (List Json) :=
  match v with
  | .arr xs => .ok xs
  | .str s => .ok (s.toList.map (fun c => .str (String.mk [c])))
  | .obj kvs => .ok (kvs.map (fun kv => .str kv.1))
  | _ => .error (.typeError "object is not iterable")

/-- One iteration of the polygon-node loop shared by
`dataset_file_add_label` and `dataset_file_update_label`: rename `left` to
`x` and `top` to `y` in place, then require both `x` and `y`. -/
def process_node (node : Json) : Except PyError Json :=
  match py_in "left" node with
  | .error e => .error e
  | .ok hasLeft =>
    match (if hasLeft then
             match py_getitem node "left" with
             | .error e => .error e
             | .ok v =>
               match py_setitem node "x" v with
               | .error e => .error e
               | .ok node1 => py_pop node1 "left"
           else .ok node : Except PyError Json) with
    | .error e => .error e
    | .ok node1 =>
      match py_in "top" node1 with
      | .error e => .error e
      | .ok hasTop =>
        match (if hasTop then
                 match py_getitem node1 "top" with
                 | .error e => .error e
                 | .ok v =>
                   match py_setitem node1 "y" v with
                   | .error e => .error e
                   | .ok node2 => py_pop node2 "top"
               else .ok node1 : Except PyError Json) with
        | .error e => .error e
        | .ok node2 =>
          match py_in "x" node2 with
          | .error e => .error e
          | .ok hasX =>
            match py_in "y" node2 with
            | .error e => .error e
            | .ok hasY =>
              if !hasX || !hasY then
                .error (.httpError 400 "Invalid polygon: missing x or y")
              else .ok node2

/-- The whole `for node in polygon_parsed` loop. -/
def process_nodes : List Json → Except PyError (List Json) :=
  eachOk process_node

/-- The parse-and-validate prefix of the label write paths: `json.loads`
(parse failure is the 400 "Invalid polygon" response), then iterate the
parsed value running `process_node` on each node.  Returns the parsed value
together with the processed node list. -/
def normalize_polygon_full (polygon : String) :
    Except PyError (Json × List Json) :=
  match json_loads polygon with
  | none => .error (.httpError 400 "Invalid polygon")
  | some polygon_parsed =>
    match py_iter polygon_parsed with
    | .error e => .error e
    | .ok nodes =>
      match process_nodes nodes with
      | .error e => .error e
      | .ok nodes1 => .ok (polygon_parsed, nodes1)

/-- The polygon normalizer of the write paths, as a function from the
submitted text to the canonical node sequence. -/
def normalize_polygon (polygon : String) : Except PyError (List Json) :=
  (normalize_polygon_full polygon).map (fun p => p.2)

/-- The in-place mutation visible on `polygon_parsed` after the loop: a
list now holds the processed nodes; iterating a string or dict produced
fresh elements, so those values are unchanged. -/
def mutated_parsed (orig : Json) (nodes1 : List Json) : Json :=
  match orig with
  | .arr _ => .arr nodes1
  | other => other

/-- Python `v is None`, where JSON `null` decodes to `None`. -/
def Json.isNullb : Json → Bool
  | .null => true
  | _ => false

/-- `DatasetObject.clean_polygons` body for one point:
`x = polygon.get("x", None)`, fall back to `left` when that is `None`, same
for `y` / `top`, and emit the two-key dict; non-dict points raise
(`AttributeError`/`TypeError` on `.get`). -/
def clean_one (p : Json) : Except PyError Json :=
  match p with
  | .obj kvs =>
    let x0 := (dictGet kvs "x").getD .null
    let x := if x0.isNullb && kvs.any (fun kv => kv.1 == "left") then
               (dictGet kvs "left").getD .null
             else x0
    let y0 := (dictGet kvs "y").getD .null
    let y := if y0.isNullb && kvs.any (fun kv => kv.1 == "top") then
               (dictGet kvs "top").getD .null
             else y0
    .ok (.obj [("x", x), ("y", y)])
  | _ => .error (.typeError "object has no attribute get")

/-- `DatasetObject.clean_polygons`: `None` and non-list inputs give `[]`;
lists are cleaned pointwise in order. -/
def clean_polygons (polygon_list : Json) : Except PyError (List Json) :=
  match polygon_list with
  | .null => .ok []
  | .arr xs => eachOk clean_one xs
  | _ => .ok []

/-- `DatasetObject.polygon_string_to_json`: parse (decode failure gives the
empty Python list), then clean. -/
def polygon_string_to_json (s : String) : Except PyError (List Json) :=
  match json_loads s with
  | some v => clean_polygons v
  | none => clean_polygons (.arr [])

/-- Lexicographic code-point comparison of character lists: the order
Python string comparison uses and the model of the database's ORDER BY
collation on names. -/
def charListLe : List Char → List Char → Bool
  | [], _ => true
  | _ :: _, [] => false
  | a :: as1, b :: bs1 =>
    if a.toNat < b.toNat then true
    else if b.toNat < a.toNat then false
    else charListLe as1 bs1

/-- Lexicographic code-point order on strings. -/
def strLe (a b : String) : Bool := charListLe a.toList b.toList

/-- `charListLe` is total. -/
theorem charListLe_total (xs : List Char) :
    ∀ ys, charListLe xs ys = true ∨ charListLe ys xs = true := by
  induction xs with
  | nil => intro ys; left; rfl
  | cons a as1 ih =>
    intro ys
    cases ys with
    | nil => right; rfl
    | cons b bs1 =>
      by_cases h1 : a.toNat < b.toNat
      · left; simp [charListLe, h1]
      · by_cases h2 : b.toNat < a.toNat
        · right; simp [charListLe, h2]
        · rcases ih bs1 with h | h
          · left; simp [charListLe, h1, h2, h]
          · right; simp [charListLe, h1, h2, h]

/-- `charListLe` is transitive. -/
theorem charListLe_trans (xs : List Char) :
    ∀ ys zs, charListLe xs ys = true → charListLe ys zs = true →
      charListLe xs zs = true := by
  induction xs with
  | nil => intro ys zs _ _; rfl
  | cons a as1 ih =>
    intro ys zs h1 h2
    cases ys with
    | nil => simp [charListLe] at h1
    | cons b bs1 =>
      cases zs with
      | nil => simp [charListLe] at h2
      | cons c cs1 =>
        simp only [charListLe] at h1 h2 ⊢
        by_cases hab : a.toNat < b.toNat
        · by_cases hbc : b.toNat < c.toNat
          · have hac : a.toNat < c.toNat := Nat.lt_trans hab hbc
            simp [hac]
          · by_cases hcb : c.toNat < b.toNat
            · simp [hbc, hcb] at h2
            · have hac : a.toNat < c.toNat := by omega
              simp [hac]
        · by_cases hba : b.toNat < a.toNat
          · simp [hab, hba] at h1
          · rw [if_neg hab, if_neg hba] at h1
            by_cases hbc : b.toNat < c.toNat
            · have hac : a.toNat < c.toNat := by omega
              simp [hac]
            · by_cases hcb : c.toNat < b.toNat
              · simp [hbc, hcb] at h2
              · rw [if_neg hbc, if_neg hcb] at h2
                have hnac : ¬a.toNat < c.toNat := by omega
                have hnca : ¬c.toNat < a.toNat := by omega
                rw [if_neg hnac, if_neg hnca]
                exact ih bs1 cs1 h1 h2

/-- Helper of `pySplitComma`: accumulate the current field (reversed) and
cut at every separator. -/
def splitCommaAux : List Char → List Char → List String
  | [], acc => [String.mk acc.reverse]
  | c :: rest, acc =>
    if c = ',' then String.mk acc.reverse :: splitCommaAux rest []
    else splitCommaAux rest (c :: acc)

/-- Python `s.split(",")`. -/
def pySplitComma (s : String) : List String := splitCommaAux s.toList []

/-- Response of `dataset_upload_file`. -/
structure UploadFileResponse where
  status : String
  s3_object_name : String
  dataset_object_id : Nat
deriving DecidableEq, Repr

/-- Response of the add-tag handlers. -/
structure TagResponse where
  status : String
  tag_guid : Nat
  tag : String
deriving DecidableEq, Repr

/-- Response of `dataset_file_add_label` (the polygon echoes the parsed,
in-place mutated value). -/
structure LabelResponse where
  status : String
  label_guid : Nat
  label : String
  polygon : Json

/-- `{"status": "OK"}`. -/
structure BasicResponse where
  status : String
deriving DecidableEq, Repr

/-- One entry of `as_dict`'s sorted tag list. -/
structure TagDict where
  tag_guid : Nat
  tag : String
deriving DecidableEq, Repr

/-- One entry of `as_dict`'s sorted label list (polygon already decoded and
cleaned). -/
structure LabelDict where
  label_guid : Nat
  label : String
  polygon : List Json

/-- `DatasetObject.as_dict` output. -/
structure FileDict where
  id : Nat
  name : String
  s3_object_name : String
  content_type : String
  file_hash_sha1 : String
  tags : List TagDict
  labels : List LabelDict

/-- Response of `dataset_file_details`. -/
structure DatasetFileDetails where
  status : String
  file : FileDict

/-- Response of `dataset_list_files`. -/
structure ListFilesResponse where
  status : String
  files : List FileDict
  count : Nat
  total_count : Nat

/-- `DatasetObject.tags(session)`: the tag rows of this object. -/
def tagsOf (meta : MetaStore) (oid : Nat) : List DatasetObjectTagRow :=
  meta.tags.filter (fun t => t.dataset_object_id == oid)

/-- `DatasetObject.labels(session)`: the label rows of this object. -/
def labelsOf (meta : MetaStore) (oid : Nat) : List DatasetObjectLabelRow :=
  meta.labels.filter (fun l => l.dataset_object_id == oid)

/-- One entry of `as_dict`'s label list: the stored polygon is decoded via
`polygon_string_to_json` (with `l.polygon or "[]"` for an empty string). -/
def label_dict_of (l : DatasetObjectLabelRow) : Except PyError LabelDict :=
  match polygon_string_to_json (if l.polygon = "" then "[]" else l.polygon) with
  | .error e => .error e
  | .ok poly => .ok ⟨l.id, l.label, poly⟩

/-- `DatasetObject.as_dict`: the object's columns plus its tag dicts sorted
by tag value and its label dicts sorted by label name (Python `sorted` is a
stable ascending sort). -/
def as_dict (meta : MetaStore) (o : DatasetObjectRow) :
    Except PyError FileDict :=
  match eachOk label_dict_of (labelsOf meta o.id) with
  | .error e => .error e
  | .ok labelDicts =>
    .ok
      { id := o.id
        name := o.name
        s3_object_name := o.s3_object_name
        content_type := o.content_type
        file_hash_sha1 := o.file_hash_sha1
        tags := List.insertionSort (fun a b => strLe a.tag b.tag = true)
          ((tagsOf meta o.id).map (fun t => ⟨t.id, t.tag⟩))
        labels := List.insertionSort (fun a b => strLe a.label b.label = true) labelDicts }

/-- `POST /dataset` (`dataset_upload_file`): hash the stream in 64 KiB
chunks, seek back to the start, reject when an object with the same hash
exists, otherwise upload the blob under a fresh `{uuid}-{name}` key, insert
the object row and one tag row per submitted tag, and commit.  `u_blob` is
the `uuid4()` of the blob key, `oid` the object row id, `tagIds` the tag
row ids. -/
def dataset_upload_file (blob : BlobStore) (meta : MetaStore)
    (file_name content_type : String) (stream : PyStream)
    (tags : List String) (u_blob oid : Nat) (tagIds : List Nat) :
    Except PyError UploadFileResponse × BlobStore × MetaStore :=
  let (hashed, s1) := hashConsume stream
  let digest := sha1hex hashed
  let s2 : PyStream := { s1 with pos := 0 }
  let file_result := meta.objects.filter (fun o => o.file_hash_sha1 == digest)
  if 0 < file_result.length then
    (.error (.httpError 400 "File already exists"), blob, meta)
  else
    let s3_object_name := toString u_blob ++ "-" ++ file_name
    let (body, _s3) := pyReadAll s2
    let blob1 : BlobStore := { blobs := blob.blobs ++ [(s3_object_name, body)] }
    let row : DatasetObjectRow :=
      { id := oid, name := file_name, s3_object_name := s3_object_name
        content_type := content_type, file_hash_sha1 := digest }
    let meta1 : MetaStore := { meta with objects := meta.objects ++ [row] }
    let newTags := (tags.zip tagIds).map
      (fun p => (⟨p.2, oid, p.1⟩ : DatasetObjectTagRow))
    let meta2 : MetaStore := { meta1 with tags := meta1.tags ++ newTags }
    (.ok { status := "OK", s3_object_name := s3_object_name,
           dataset_object_id := oid }, blob1, meta2)

/-- `GET /dataset/{id}` (`dataset_download_file`): look up the object, 404
when absent, then fetch and stream the blob. -/
def dataset_download_file (blob : BlobStore) (meta : MetaStore)
    (file_guid : Nat) :
    Except PyError (List Nat) × BlobStore × MetaStore :=
  match oneOrNone (meta.objects.filter (fun o => o.id == file_guid)) with
  | .error e => (.error e, blob, meta)
  | .ok none => (.error (.httpError 404 "File not found"), blob, meta)
  | .ok (some file) =>
    match blobGet blob file.s3_object_name with
    | .error e => (.error e, blob, meta)
    | .ok body => (.ok body, blob, meta)

/-- `DELETE /dataset/{id}` (`dataset_delete_file`): look up the object, 404
when absent; delete the blob, then the object's tag rows, then the object
row.  (The source never touches `dataset_object_labels` here.) -/
def dataset_delete_file (blob : BlobStore) (meta : MetaStore)
    (file_guid : Nat) :
    Except PyError BasicResponse × BlobStore × MetaStore :=
  match oneOrNone (meta.objects.filter (fun o => o.id == file_guid)) with
  | .error e => (.error e, blob, meta)
  | .ok none => (.error (.httpError 404 "File not found"), blob, meta)
  | .ok (some file_object) =>
    let blob1 := blobDelete blob file_object.s3_object_name
    let meta1 : MetaStore :=
      { meta with tags := meta.tags.filter (fun t => t.dataset_object_id != file_guid) }
    let meta2 : MetaStore :=
      { meta1 with objects := meta1.objects.filter (fun o => o.id != file_guid) }
    (.ok { status := "OK" }, blob1, meta2)

/-- `POST /dataset/{id}/tags` (`dataset_file_add_tag`): look up the object,
404 when absent; reject with 400 "Tag already exists" when the tag value
string-matches an existing tag of the object; otherwise insert and commit. -/
def dataset_file_add_tag (meta : MetaStore) (file_guid : Nat) (tag : String)
    (tag_guid : Nat) : Except PyError TagResponse × MetaStore :=
  match oneOrNone (meta.objects.filter (fun o => o.id == file_guid)) with
  | .error e => (.error e, meta)
  | .ok none => (.error (.httpError 404 "File not found"), meta)
  | .ok (some file_row) =>
    let existing_tags := tagsOf meta file_row.id
    if (existing_tags.map (fun t => t.tag)).contains tag then
      (.error (.httpError 400 "Tag already exists"), meta)
    else
      let row : DatasetObjectTagRow := ⟨tag_guid, file_guid, tag⟩
      (.ok { status := "OK", tag_guid := tag_guid, tag := tag },
       { meta with tags := meta.tags ++ [row] })

/-- `POST /models/{id}/tags` (`model_file_add_tag`, src/app/model.py): look
up the model object, 404 when absent; insert the tag row unconditionally -
this path has no duplicate check. -/
def model_file_add_tag (meta : MetaStore) (file_guid : Nat) (tag : String)
    (tag_guid : Nat) : Except PyError TagResponse × MetaStore :=
  match oneOrNone (meta.mlobjects.filter (fun o => o.id == file_guid)) with
  | .error e => (.error e, meta)
  | .ok none => (.error (.httpError 404 "File not found"), meta)
  | .ok (some _file_row) =>
    let row : MLModelObjectTagRow := ⟨tag_guid, file_guid, tag⟩
    (.ok { status := "OK", tag_guid := tag_guid, tag := tag },
     { meta with mltags := meta.mltags ++ [row] })

/-- `POST /dataset/{id}/labels` (`dataset_file_add_label`): look up the
object, 404 when absent; parse and validate the polygon text (parse failure
is 400 "Invalid polygon", the node loop may raise); reject with 400 "Label
already exists" when an existing label of the object matches on both label
name and raw polygon string; otherwise insert the raw strings and commit. -/
def dataset_file_add_label (meta : MetaStore) (file_guid : Nat)
    (label polygon : String) (label_guid : Nat) :
    Except PyError LabelResponse × MetaStore :=
  match oneOrNone (meta.objects.filter (fun o => o.id == file_guid)) with
  | .error e => (.error e, meta)
  | .ok none => (.error (.httpError 404 "File not found"), meta)
  | .ok (some file_row) =>
    match normalize_polygon_full polygon with
    | .error e => (.error e, meta)
    | .ok (polygon_parsed, nodes1) =>
      let existing_labels := labelsOf meta file_row.id
      if existing_labels.any
          (fun l => l.label == label && l.polygon == polygon) then
        (.error (.httpError 400 "Label already exists"), meta)
      else
        let row : DatasetObjectLabelRow := ⟨label_guid, file_guid, label, polygon⟩
        (.ok { status := "OK", label_guid := label_guid, label := label,
               polygon := mutated_parsed polygon_parsed nodes1 },
         { meta with labels := meta.labels ++ [row] })

/-- `PUT /dataset/{id}/labels/{label_id}` (`dataset_file_update_label`):
look up the object then the label, 404 when either is absent; parse and
validate the new polygon text exactly as on the add path; overwrite the
label row's name and polygon in place (no duplicate check). -/
def dataset_file_update_label (meta : MetaStore) (file_guid label_guid : Nat)
    (label polygon : String) : Except PyError BasicResponse × MetaStore :=
  match oneOrNone (meta.objects.filter (fun o => o.id == file_guid)) with
  | .error e => (.error e, meta)
  | .ok none => (.error (.httpError 404 "File not found"), meta)
  | .ok (some _file_row) =>
    match oneOrNone (meta.labels.filter
        (fun l => l.dataset_object_id == file_guid && l.id == label_guid)) with
    | .error e => (.error e, meta)
    | .ok none => (.error (.httpError 404 "Label not found"), meta)
    | .ok (some _label_row) =>
      match normalize_polygon_full polygon with
      | .error e => (.error e, meta)
      | .ok _ =>
        (.ok { status := "OK" },
         { meta with labels := meta.labels.map (fun l =>
             if l.dataset_object_id == file_guid && l.id == label_guid then
               { l with label := label, polygon := polygon }
             else l) })

/-- `GET /dataset/{id}/details` (`dataset_file_details`): the source
subscripts `file_result[0]` BEFORE its `if not file_result` check, so an
absent object raises `TypeError` (subscripting `None`) and the 404 branch
below it is unreachable; an existing object returns its `as_dict`. -/
def dataset_file_details (meta : MetaStore) (file_guid : Nat) :
    Except PyError DatasetFileDetails × MetaStore :=
  match oneOrNone (meta.objects.filter (fun o => o.id == file_guid)) with
  | .error e => (.error e, meta)
  | .ok none =>
    (.error (.typeError "NoneType object is not subscriptable"), meta)
  | .ok (some file) =>
    match as_dict meta file with
    | .error e => (.error e, meta)
    | .ok d => (.ok { status := "OK", file := d }, meta)

/-- `GET /dataset` (`dataset_list_files`): count all objects, select them
ordered by name with SQL `LIMIT`/`OFFSET` (a Python-falsy `0` disables
either), then per row skip the object when a truthy `search_tags`
comma-separated exclusion set intersects its tag values, and collect
`as_dict` of the rest.  Read-only: the metadata store is not returned. -/
def dataset_list_files (meta : MetaStore) (search_tags : Option String)
    (limit offset : Option Nat) : Except PyError ListFilesResponse :=
  let total_files := meta.objects.length
  let sortedObjs := List.insertionSort (fun a b => strLe a.name b.name = true) meta.objects
  let afterOffset := match offset with
    | some o => if o ≠ 0 then sortedObjs.drop o else sortedObjs
    | none => sortedObjs
  let files_result := match limit with
    | some l => if l ≠ 0 then afterOffset.take l else afterOffset
    | none => afterOffset
  let searchTruthy : Bool := match search_tags with
    | some s => s != ""
    | none => false
  let search_tags_set : List String := match search_tags with
    | some s => if s ≠ "" then pySplitComma s else []
    | none => []
  let kept := files_result.filter (fun o =>
    !(searchTruthy &&
      ((tagsOf meta o.id).map (fun t => t.tag)).any
        (fun t => search_tags_set.contains t)))
  match eachOk (fun o => as_dict meta o) kept with
  | .error e => .error e
  | .ok files_list =>
    .ok { status := "OK", files := files_list, count := files_list.length,
          total_count := total_files }

example :
    process_node (Json.obj [("left", Json.num 3), ("top", Json.num 4)])
      = .ok (Json.obj [("x", Json.num 3), ("y", Json.num 4)]) := by rfl

example :
    normalize_polygon "[\x7b\"left\":3,\"top\":4\x7d]"
      = .ok [Json.obj [("x", Json.num 3), ("y", Json.num 4)]] := by rfl

example :
    normalize_polygon "[\x7b\"x\":3,\"y\":4\x7d]"
      = .ok [Json.obj [("x", Json.num 3), ("y", Json.num 4)]] := by rfl

example : normalize_polygon "null"
    = .error (.typeError "object is not iterable") := by rfl

example : normalize_polygon "5"
    = .error (.typeError "object is not iterable") := by rfl

example : normalize_polygon "[5]"
    = .error (.typeError "argument of type is not iterable") := by rfl

example : normalize_polygon "invalid"
    = .error (.httpError 400 "Invalid polygon") := by rfl

example : normalize_polygon "[\x7b\"x\":3\x7d]"
    = .error (.httpError 400 "Invalid polygon: missing x or y") := by rfl

example : polygon_string_to_json "[\x7b\"left\":3,\"top\":4\x7d]"
    = .ok [Json.obj [("x", Json.num 3), ("y", Json.num 4)]] := by rfl

example : polygon_string_to_json "[\x7b\"x\":3,\"y\":4\x7d]"
    = .ok [Json.obj [("x", Json.num 3), ("y", Json.num 4)]] := by rfl

/-- The chunked hashing loop feeds exactly the remaining bytes, in order,
to the digest. -/
theorem sha1Chunks_eq (r acc : List Nat) : sha1Chunks r acc = acc ++ r := by
  by_cases h : r = []
  · subst h
    unfold sha1Chunks
    simp
  · unfold sha1Chunks
    rw [dif_neg h]
    rw [sha1Chunks_eq (r.drop 65536) (acc ++ r.take 65536)]
    rw [List.append_assoc, List.take_append_drop]
termination_by r.length
decreasing_by
  have hlen : r.length ≠ 0 := fun hl => h (List.eq_nil_of_length_eq_zero hl)
  simp only [List.length_drop]
  omega

/-- A successful first-error loop relates input and output pointwise. -/
theorem eachOk_ok_forall2 {α β : Type} (f : α → Except PyError β) :
    ∀ (xs : List α) (ys : List β), eachOk f xs = .ok ys →
      List.Forall₂ (fun x y => f x = .ok y) xs ys := by
  intro xs
  induction xs with
  | nil =>
    intro ys h
    simp only [eachOk] at h
    cases h
    exact List.Forall₂.nil
  | cons x xs ih =>
    intro ys h
    simp only [eachOk] at h
    cases hfx : f x with
    | error e => rw [hfx] at h; cases h
    | ok y =>
      rw [hfx] at h
      cases hrest : eachOk f xs with
      | error e => rw [hrest] at h; cases h
      | ok ys' =>
        rw [hrest] at h
        cases h
        exact List.Forall₂.cons hfx (ih ys' hrest)

/-- Left-to-right member tracking along a pointwise relation. -/
theorem forall2_mem_left {α β : Type} {R : α → β → Prop} :
    ∀ {xs : List α} {ys : List β}, List.Forall₂ R xs ys →
      ∀ x ∈ xs, ∃ y ∈ ys, R x y := by
  intro xs ys h
  induction h with
  | nil => intro x hx; cases hx
  | cons hr _ ih =>
    intro x hx
    rcases List.mem_cons.mp hx with heq | hmem
    · exact ⟨_, List.mem_cons_self _ _, heq ▸ hr⟩
    · rcases ih x hmem with ⟨y, hy, hry⟩
      exact ⟨y, List.mem_cons_of_mem _ hy, hry⟩

/-- Right-to-left member tracking along a pointwise relation. -/
theorem forall2_mem_right {α β : Type} {R : α → β → Prop} :
    ∀ {xs : List α} {ys : List β}, List.Forall₂ R xs ys →
      ∀ y ∈ ys, ∃ x ∈ xs, R x y := by
  intro xs ys h
  induction h with
  | nil => intro y hy; cases hy
  | cons hr _ ih =>
    intro y hy
    rcases List.mem_cons.mp hy with heq | hmem
    · exact ⟨_, List.mem_cons_self _ _, heq ▸ hr⟩
    · rcases ih y hmem with ⟨x, hx, hrx⟩
      exact ⟨x, List.mem_cons_of_mem _ hx, hrx⟩

/-- A pairwise property transfers along a pointwise relation. -/
theorem forall2_pairwise {α β : Type} {R : α → β → Prop}
    {P : α → α → Prop} {Q : β → β → Prop}
    (hcomp : ∀ a b a' b', R a b → R a' b' → P a a' → Q b b') :
    ∀ {xs : List α} {ys : List β}, List.Forall₂ R xs ys →
      List.Pairwise P xs → List.Pairwise Q ys := by
  intro xs ys h
  induction h with
  | nil => intro _; exact List.Pairwise.nil
  | cons hr hrest ih =>
    intro hpw
    rcases List.pairwise_cons.mp hpw with ⟨hp, hpw'⟩
    refine List.pairwise_cons.mpr ⟨?_, ih hpw'⟩
    intro y' hy'
    rcases forall2_mem_right hrest y' hy' with ⟨x', hx', hrx'⟩
    exact hcomp _ _ _ _ hr hrx' (hp x' hx')

/-- The two claim polygon encodings as submitted text. -/
def polyLeftTop : String := "[\x7b\"left\":3,\"top\":4\x7d]"

/-- The canonical `x`/`y` encoding as submitted text. -/
def polyXY : String := "[\x7b\"x\":3,\"y\":4\x7d]"

/-- An empty metadata store. -/
def emptyMeta : MetaStore := ⟨[], [], [], [], []⟩

/-- A stored dataset object used by the concrete scenarios. -/
def objRow1 : DatasetObjectRow :=
  { id := 1, name := "f.csv", s3_object_name := "11-f.csv",
    content_type := "text/csv", file_hash_sha1 := "h1" }

/-- A label row owned by `objRow1`. -/
def labelRow2 : DatasetObjectLabelRow :=
  { id := 2, dataset_object_id := 1, label := "crack", polygon := "[]" }

/-- A tag row owned by `objRow1`. -/
def tagRow3 : DatasetObjectTagRow :=
  { id := 3, dataset_object_id := 1, tag := "test" }

/-- Store holding `objRow1` alone. -/
def storeOneObj : MetaStore := ⟨[objRow1], [], [], [], []⟩

/-- Store holding `objRow1` with its label `labelRow2` and tag `tagRow3`. -/
def storeWithChildren : MetaStore := ⟨[objRow1], [tagRow3], [labelRow2], [], []⟩

/-- Blob store holding the blob of `objRow1`. -/
def blobWith1 : BlobStore := ⟨[("11-f.csv", [9, 9, 9])]⟩

/-- C5: the claim says a Details call on an absent UID fails with the
"File not found" client error like the sibling handlers; the source
subscripts the `None` query result before its not-found check, so the call
instead raises an uncaught `TypeError` and the 404 branch is dead code.
This theorem evaluates the model at the failing input. -/
theorem c5_details_absent_uid_raises_typeerror :
    dataset_file_details emptyMeta 7
      = (.error (.typeError "NoneType object is not subscriptable"), emptyMeta)
    ∧ (dataset_file_details emptyMeta 7).1
      ≠ .error (.httpError 404 "File not found") := by
  refine ⟨rfl, fun h => ?_⟩
  exact PyError.noConfusion (Except.error.inj h)

/-- C10: on the Add-Label and Update-Label paths, polygon texts that parse
as valid JSON but yield a non-list (`"null"`, `"5"`) are not rejected with
the 400 "Invalid polygon" client error: the node loop iterates the parsed
value directly and raises an uncaught `TypeError`, an error outside the
documented taxonomy.  (State is unchanged: the raise happens before any
write.) -/
theorem c10_nonlist_polygon_raises_typeerror :
    dataset_file_add_label storeWithChildren 1 "lab" "null" 9
      = (.error (.typeError "object is not iterable"), storeWithChildren)
    ∧ dataset_file_add_label storeWithChildren 1 "lab" "5" 9
      = (.error (.typeError "object is not iterable"), storeWithChildren)
    ∧ dataset_file_update_label storeWithChildren 1 2 "lab" "null"
      = (.error (.typeError "object is not iterable"), storeWithChildren)
    ∧ dataset_file_update_label storeWithChildren 1 2 "lab" "5"
      = (.error (.typeError "object is not iterable"), storeWithChildren)
    ∧ PyError.typeError "object is not iterable"
      ≠ PyError.httpError 400 "Invalid polygon" := by
  exact ⟨rfl, rfl, rfl, rfl, by decide⟩

/-- C2 counterexample: the claim says a successful Delete leaves no child
Label row, but deleting `objRow1` (which owns `labelRow2`) succeeds and
leaves `labelRow2` in the metadata store: the source deletes the blob, the
tag rows and the object row and never touches `dataset_object_labels`. -/
theorem c2_delete_leaves_label_row :
    (dataset_delete_file blobWith1 storeWithChildren 1).1
      = .ok { status := "OK" }
    ∧ (dataset_delete_file blobWith1 storeWithChildren 1).2.2.labels
      = [labelRow2]
    ∧ labelRow2.dataset_object_id = 1 := by
  exact ⟨rfl, rfl, rfl⟩

/-- C2 as amended: for every existing dataset Object, Delete removes its
blob, then its child Tag rows, then its Object row; its child Label rows
are not removed and remain in the metadata store unchanged. -/
theorem c2_delete_removes_blob_tags_object_not_labels
    (blob : BlobStore) (meta : MetaStore) (file_guid : Nat)
    (row : DatasetObjectRow)
    (hrow : oneOrNone (meta.objects.filter (fun o => o.id == file_guid))
      = .ok (some row)) :
    dataset_delete_file blob meta file_guid
      = (.ok { status := "OK" },
         blobDelete blob row.s3_object_name,
         { objects := meta.objects.filter (fun o => o.id != file_guid),
           tags := meta.tags.filter (fun t => t.dataset_object_id != file_guid),
           labels := meta.labels,
           mlobjects := meta.mlobjects,
           mltags := meta.mltags }) := by
  unfold dataset_delete_file
  rw [hrow]

/-- Witness for the amended C2 at the concrete store: the blob and the tag
row and the object row are gone, the label row stays. -/
theorem c2_delete_removes_blob_tags_object_not_labels_witness :
    dataset_delete_file blobWith1 storeWithChildren 1
      = (.ok { status := "OK" },
         blobDelete blobWith1 objRow1.s3_object_name,
         { objects := storeWithChildren.objects.filter (fun o => o.id != 1),
           tags := storeWithChildren.tags.filter (fun t => t.dataset_object_id != 1),
           labels := storeWithChildren.labels,
           mlobjects := storeWithChildren.mlobjects,
           mltags := storeWithChildren.mltags }) :=
  c2_delete_removes_blob_tags_object_not_labels blobWith1 storeWithChildren 1
    objRow1 rfl

/-- C1: when the uploaded content's hash equals the stored hash of an
existing dataset object, Create fails with the 400 "File already exists"
duplicate-content error, writes no blob and mutates no metadata: both
stores come back exactly as they went in. -/
theorem c1_duplicate_hash_rejected_no_writes
    (blob : BlobStore) (meta : MetaStore) (file_name content_type : String)
    (stream : PyStream) (tags : List String) (u_blob oid : Nat)
    (tagIds : List Nat)
    (hpos : stream.pos = 0)
    (hdup : ∃ o ∈ meta.objects, o.file_hash_sha1 = sha1hex stream.data) :
    dataset_upload_file blob meta file_name content_type stream tags
      u_blob oid tagIds
      = (.error (.httpError 400 "File already exists"), blob, meta) := by
  obtain ⟨o, ho, hhash⟩ := hdup
  have hmem : o ∈ meta.objects.filter
      (fun o => o.file_hash_sha1 == sha1hex stream.data) :=
    List.mem_filter.mpr ⟨ho, by simp [hhash]⟩
  have hlen : 0 < (meta.objects.filter
      (fun o => o.file_hash_sha1 == sha1hex stream.data)).length :=
    List.length_pos_of_mem hmem
  unfold dataset_upload_file
  simp only [hashConsume, hpos, List.drop_zero, sha1Chunks_eq, List.nil_append]
  rw [if_pos hlen]

/-- An object whose stored hash collides with uploading bytes `[1, 2, 3]`. -/
def objRowDup : DatasetObjectRow :=
  { id := 4, name := "g.csv", s3_object_name := "44-g.csv",
    content_type := "text/csv", file_hash_sha1 := sha1hex [1, 2, 3] }

/-- Store holding `objRowDup` alone. -/
def storeDup : MetaStore := ⟨[objRowDup], [], [], [], []⟩

/-- Witness for C1: re-uploading bytes `[1, 2, 3]` against `storeDup` is
rejected and both stores are untouched. -/
theorem c1_duplicate_hash_rejected_no_writes_witness :
    dataset_upload_file ⟨[]⟩ storeDup "g.csv" "text/csv" ⟨[1, 2, 3], 0⟩ []
      5 6 []
      = (.error (.httpError 400 "File already exists"), ⟨[]⟩, storeDup) :=
  c1_duplicate_hash_rejected_no_writes ⟨[]⟩ storeDup "g.csv" "text/csv"
    ⟨[1, 2, 3], 0⟩ [] 5 6 [] rfl
    ⟨objRowDup, by simp [storeDup], rfl⟩

/-- C9: a successful Add-Label stores the polygon text exactly as
submitted - the inserted row carries the raw input string, never the
normalized form - and the duplicate check compares raw strings, so the
same label name with the `left`/`top` encoding and then with the
semantically identical `x`/`y` encoding both insert (the second is not
rejected as a duplicate). -/
theorem c9_raw_polygon_stored_and_compared
    (meta : MetaStore) (file_guid : Nat) (label polygon : String)
    (lid : Nat) (r : LabelResponse) (meta' : MetaStore)
    (h : dataset_file_add_label meta file_guid label polygon lid
      = (.ok r, meta')) :
    meta'.labels = meta.labels
      ++ [{ id := lid, dataset_object_id := file_guid, label := label,
            polygon := polygon }]
    ∧ (dataset_file_add_label storeOneObj 1 "crack" polyLeftTop 10).2.labels
      = [{ id := 10, dataset_object_id := 1, label := "crack",
           polygon := polyLeftTop }]
    ∧ (dataset_file_add_label
        (dataset_file_add_label storeOneObj 1 "crack" polyLeftTop 10).2
        1 "crack" polyXY 11).2.labels
      = [{ id := 10, dataset_object_id := 1, label := "crack",
           polygon := polyLeftTop },
         { id := 11, dataset_object_id := 1, label := "crack",
           polygon := polyXY }]
    ∧ (∃ r2, (dataset_file_add_label
        (dataset_file_add_label storeOneObj 1 "crack" polyLeftTop 10).2
        1 "crack" polyXY 11).1 = .ok r2) := by
  refine ⟨?_, rfl, rfl, ⟨_, rfl⟩⟩
  unfold dataset_file_add_label at h
  cases h1 : oneOrNone (meta.objects.filter (fun o => o.id == file_guid)) with
  | error e => rw [h1] at h; simp at h
  | ok fr =>
    rw [h1] at h
    cases fr with
    | none => simp at h
    | some file_row =>
      dsimp only at h
      cases h2 : normalize_polygon_full polygon with
      | error e => rw [h2] at h; simp at h
      | ok pr =>
        rw [h2] at h
        obtain ⟨polygon_parsed, nodes1⟩ := pr
        dsimp only at h
        by_cases hc : ((labelsOf meta file_row.id).any
            (fun l => l.label == label && l.polygon == polygon)) = true
        · rw [if_pos hc] at h; simp at h
        · rw [if_neg hc] at h
          have := congrArg Prod.snd h
          simp at this
          rw [← this]

/-- Witness for C9: adding label "crack" with the `x`/`y` text to
`storeOneObj` stores that exact string. -/
theorem c9_raw_polygon_stored_and_compared_witness :
    ({ storeOneObj with
        labels := [{ id := 10, dataset_object_id := 1, label := "crack",
                     polygon := polyXY }] } : MetaStore).labels
      = storeOneObj.labels
        ++ [{ id := 10, dataset_object_id := 1, label := "crack",
              polygon := polyXY }]
    ∧ (dataset_file_add_label storeOneObj 1 "crack" polyLeftTop 10).2.labels
      = [{ id := 10, dataset_object_id := 1, label := "crack",
           polygon := polyLeftTop }]
    ∧ (dataset_file_add_label
        (dataset_file_add_label storeOneObj 1 "crack" polyLeftTop 10).2
        1 "crack" polyXY 11).2.labels
      = [{ id := 10, dataset_object_id := 1, label := "crack",
           polygon := polyLeftTop },
         { id := 11, dataset_object_id := 1, label := "crack",
           polygon := polyXY }]
    ∧ (∃ r2, (dataset_file_add_label
        (dataset_file_add_label storeOneObj 1 "crack" polyLeftTop 10).2
        1 "crack" polyXY 11).1 = .ok r2) :=
  c9_raw_polygon_stored_and_compared storeOneObj 1 "crack" polyXY 10
    { status := "OK", label_guid := 10, label := "crack",
      polygon := Json.arr [Json.obj [("x", Json.num 3), ("y", Json.num 4)]] }
    { storeOneObj with
        labels := [{ id := 10, dataset_object_id := 1, label := "crack",
                     polygon := polyXY }] }
    rfl

/-- C7: on an existing Object with a well-formed polygon text, Add-Label is
rejected as a duplicate exactly when some existing Label of that Object
matches on BOTH label name and polygon string (400 "Label already exists",
no row inserted, store unchanged); when every existing Label differs in
name or polygon, the Label row is inserted. -/
theorem c7_label_duplicate_requires_name_and_polygon
    (meta : MetaStore) (file_guid : Nat) (label polygon : String)
    (lid : Nat) (row : DatasetObjectRow) (pr : Json × List Json)
    (hrow : oneOrNone (meta.objects.filter (fun o => o.id == file_guid))
      = .ok (some row))
    (hnorm : normalize_polygon_full polygon = .ok pr) :
    ((∃ l ∈ meta.labels, l.dataset_object_id = row.id
        ∧ l.label = label ∧ l.polygon = polygon) →
      dataset_file_add_label meta file_guid label polygon lid
        = (.error (.httpError 400 "Label already exists"), meta))
    ∧ ((∀ l ∈ meta.labels, l.dataset_object_id = row.id →
          ¬(l.label = label ∧ l.polygon = polygon)) →
      dataset_file_add_label meta file_guid label polygon lid
        = (.ok { status := "OK", label_guid := lid, label := label,
                 polygon := mutated_parsed pr.1 pr.2 },
           { meta with labels := meta.labels
              ++ [{ id := lid, dataset_object_id := file_guid,
                    label := label, polygon := polygon }] })) := by
  obtain ⟨polygon_parsed, nodes1⟩ := pr
  constructor
  · rintro ⟨l, hl, hdo, hlab, hpoly⟩
    have hmem : l ∈ labelsOf meta row.id :=
      List.mem_filter.mpr ⟨hl, by simp [hdo]⟩
    have hc : ((labelsOf meta row.id).any
        (fun l => l.label == label && l.polygon == polygon)) = true :=
      List.any_eq_true.mpr ⟨l, hmem, by simp [hlab, hpoly]⟩
    unfold dataset_file_add_label
    rw [hrow]
    dsimp only
    rw [hnorm]
    dsimp only
    rw [if_pos hc]
  · intro hno
    have hc : ¬((labelsOf meta row.id).any
        (fun l => l.label == label && l.polygon == polygon)) = true := by
      intro hc
      rcases List.any_eq_true.mp hc with ⟨l, hmem, hp⟩
      rcases List.mem_filter.mp hmem with ⟨hl, hdo⟩
      have hdo' : l.dataset_object_id = row.id := by
        simpa using hdo
      simp only [Bool.and_eq_true, beq_iff_eq] at hp
      exact hno l hl hdo' hp
    unfold dataset_file_add_label
    rw [hrow]
    dsimp only
    rw [hnorm]
    dsimp only
    rw [if_neg hc]

/-- Witness for C7, rejection side: `storeWithChildren` already holds label
("crack", "[]") on object 1, so re-adding the identical pair is rejected
with the store unchanged. -/
theorem c7_label_duplicate_requires_name_and_polygon_witness :
    dataset_file_add_label storeWithChildren 1 "crack" "[]" 9
      = (.error (.httpError 400 "Label already exists"), storeWithChildren) :=
  (c7_label_duplicate_requires_name_and_polygon storeWithChildren 1 "crack"
      "[]" 9 objRow1 (Json.arr [], []) rfl rfl).1
    ⟨labelRow2, by simp [storeWithChildren], rfl, rfl, rfl⟩

/-- C8: on the dataset Add-Tag path, adding a tag whose value exactly
string-matches a tag already attached to the Object is rejected with 400
"Tag already exists" before any insert, leaving the store unchanged; the
model Add-Tag path has no such check and inserts unconditionally whenever
the model object exists. -/
theorem c8_dataset_tag_duplicate_check_only_on_dataset_path
    (meta : MetaStore) (file_guid : Nat) (tag : String) (tid : Nat)
    (row : DatasetObjectRow)
    (hrow : oneOrNone (meta.objects.filter (fun o => o.id == file_guid))
      = .ok (some row))
    (hdup : ∃ t ∈ meta.tags, t.dataset_object_id = row.id ∧ t.tag = tag) :
    dataset_file_add_tag meta file_guid tag tid
      = (.error (.httpError 400 "Tag already exists"), meta)
    ∧ ∀ (meta2 : MetaStore) (g2 : Nat) (tag2 : String) (tid2 : Nat)
        (mrow : MLModelObjectRow),
        oneOrNone (meta2.mlobjects.filter (fun o => o.id == g2))
          = .ok (some mrow) →
        model_file_add_tag meta2 g2 tag2 tid2
          = (.ok { status := "OK", tag_guid := tid2, tag := tag2 },
             { meta2 with mltags := meta2.mltags
                ++ [{ id := tid2, mlmodel_object_id := g2, tag := tag2 }] }) := by
  constructor
  · obtain ⟨t, ht, hdo, htag⟩ := hdup
    have hmem : t ∈ tagsOf meta row.id :=
      List.mem_filter.mpr ⟨ht, by simp [tagsOf, hdo]⟩
    have hc : (((tagsOf meta row.id).map (fun t => t.tag)).contains tag)
        = true := by
      simp only [List.contains_iff_exists_mem_beq]
      exact ⟨t.tag, List.mem_map_of_mem _ hmem, by simp [htag]⟩
    unfold dataset_file_add_tag
    rw [hrow]
    dsimp only
    rw [if_pos hc]
  · intro meta2 g2 tag2 tid2 mrow hmrow
    unfold model_file_add_tag
    rw [hmrow]

/-- Witness for C8: object 1 of `storeWithChildren` already carries tag
"test", so re-adding it is rejected; and on a one-model store the model
path inserts a duplicate of its existing tag without complaint. -/
theorem c8_dataset_tag_duplicate_check_only_on_dataset_path_witness :
    dataset_file_add_tag storeWithChildren 1 "test" 9
      = (.error (.httpError 400 "Tag already exists"), storeWithChildren)
    ∧ model_file_add_tag
        ⟨[], [], [], [{ id := 20, name := "m", s3_object_name := "k",
                        content_type := "b" }],
         [{ id := 21, mlmodel_object_id := 20, tag := "dup" }]⟩
        20 "dup" 22
      = (.ok { status := "OK", tag_guid := 22, tag := "dup" },
         ⟨[], [], [], [{ id := 20, name := "m", s3_object_name := "k",
                         content_type := "b" }],
          [{ id := 21, mlmodel_object_id := 20, tag := "dup" },
           { id := 22, mlmodel_object_id := 20, tag := "dup" }]⟩) := by
  have h := c8_dataset_tag_duplicate_check_only_on_dataset_path
    storeWithChildren 1 "test" 9 objRow1 rfl
    ⟨tagRow3, by simp [storeWithChildren], rfl, rfl⟩
  exact ⟨h.1, h.2 _ 20 "dup" 22
    { id := 20, name := "m", s3_object_name := "k", content_type := "b" } rfl⟩

/-- `find?` skips a prefix on which the predicate fails. -/
theorem find?_append_of_none {α : Type} (p : α → Bool) (l1 l2 : List α)
    (h : ∀ x ∈ l1, p x = false) : (l1 ++ l2).find? p = l2.find? p := by
  induction l1 with
  | nil => simp
  | cons a l ih =>
    rw [List.cons_append, List.find?_cons_of_neg]
    · exact ih (fun x hx => h x (List.mem_cons_of_mem _ hx))
    · simp [h a (List.mem_cons_self _ _)]

/-- Filtering by a fresh object id keeps exactly the appended row. -/
theorem filter_append_singleton_id (l : List DatasetObjectRow)
    (row : DatasetObjectRow) (oid : Nat)
    (hl : ∀ o ∈ l, o.id ≠ oid) (hrow : row.id = oid) :
    (l ++ [row]).filter (fun o => o.id == oid) = [row] := by
  rw [List.filter_append,
    List.filter_eq_nil_iff.mpr (fun o ho => by simp [hl o ho])]
  simp [hrow]

/-- C3: Create hashes the stream, rewinds it to position 0, and sends the
same stream to the blob store, so the stored blob is byte-identical to the
upload; downloading by the returned Object ID then yields exactly the
uploaded bytes.  (Freshness of the generated ids - no stored object shares
the new object id or blob key, and the content hash is new - reflects
`uuid4` uniqueness and the dedup precondition.) -/
theorem c3_upload_download_roundtrip
    (blob : BlobStore) (meta : MetaStore) (file_name content_type : String)
    (stream : PyStream) (tags : List String) (u_blob oid : Nat)
    (tagIds : List Nat)
    (hpos : stream.pos = 0)
    (hnew : ∀ o ∈ meta.objects, o.file_hash_sha1 ≠ sha1hex stream.data)
    (hoid : ∀ o ∈ meta.objects, o.id ≠ oid)
    (hkey : ∀ kv ∈ blob.blobs, kv.1 ≠ toString u_blob ++ "-" ++ file_name) :
    ∃ (resp : UploadFileResponse) (blob' : BlobStore) (meta' : MetaStore),
      dataset_upload_file blob meta file_name content_type stream tags
        u_blob oid tagIds = (.ok resp, blob', meta')
      ∧ resp.dataset_object_id = oid
      ∧ dataset_download_file blob' meta' resp.dataset_object_id
        = (.ok stream.data, blob', meta') := by
  have hfilter : meta.objects.filter
      (fun o => o.file_hash_sha1 == sha1hex stream.data) = [] :=
    List.filter_eq_nil_iff.mpr (fun o ho => by simp [hnew o ho])
  refine ⟨
    { status := "OK", s3_object_name := toString u_blob ++ "-" ++ file_name,
      dataset_object_id := oid },
    ⟨blob.blobs ++ [(toString u_blob ++ "-" ++ file_name, stream.data)]⟩,
    { meta with
        objects := meta.objects
          ++ [{ id := oid, name := file_name,
                s3_object_name := toString u_blob ++ "-" ++ file_name,
                content_type := content_type,
                file_hash_sha1 := sha1hex stream.data }],
        tags := meta.tags ++ (tags.zip tagIds).map
          (fun p => { id := p.2, dataset_object_id := oid, tag := p.1 }) },
    ?_, rfl, ?_⟩
  · unfold dataset_upload_file
    simp only [hashConsume, hpos, List.drop_zero, sha1Chunks_eq,
      List.nil_append, pyReadAll]
    rw [hfilter]
    simp
  · unfold dataset_download_file
    dsimp only
    rw [filter_append_singleton_id _ _ _ hoid rfl]
    dsimp only [oneOrNone]
    unfold blobGet
    dsimp only
    rw [find?_append_of_none _ _ _
      (fun kv hkv => by simp [hkey kv hkv])]
    rw [List.find?_cons_of_pos _ (by simp)]

/-- Witness for C3: uploading bytes `[1, 2, 3]` into empty stores and
downloading by the returned id gives the bytes back. -/
theorem c3_upload_download_roundtrip_witness :
    ∃ (resp : UploadFileResponse) (blob' : BlobStore) (meta' : MetaStore),
      dataset_upload_file ⟨[]⟩ emptyMeta "f.bin" "" ⟨[1, 2, 3], 0⟩ [] 30 31 []
        = (.ok resp, blob', meta')
      ∧ resp.dataset_object_id = 31
      ∧ dataset_download_file blob' meta' resp.dataset_object_id
        = (.ok ([1, 2, 3] : List Nat), blob', meta') :=
  c3_upload_download_roundtrip ⟨[]⟩ emptyMeta "f.bin" "" ⟨[1, 2, 3], 0⟩ []
    30 31 [] rfl (by simp [emptyMeta]) (by simp [emptyMeta])
    (by simp)

/-- C4: the node loop of the polygon normalizer preserves input order - a
successful run has the same length as its input and its i-th output is the
normalization of the i-th input point, never re-sorted - and the two known
point encodings canonicalize identically:
`normalize('[ {left,top} ]') = normalize('[ {x,y} ]') = [ {x: 3, y: 4} ]`,
both on the write-path normalizer and on the read-path
`polygon_string_to_json` / `clean_polygons`. -/
theorem c4_normalization_canonical_and_order_preserving
    (nodes out : List Json) (h : process_nodes nodes = .ok out) :
    out.length = nodes.length
    ∧ (∀ (i : Nat) (h1 : i < nodes.length) (h2 : i < out.length),
        process_node (nodes.get ⟨i, h1⟩) = .ok (out.get ⟨i, h2⟩))
    ∧ normalize_polygon polyLeftTop = normalize_polygon polyXY
    ∧ normalize_polygon polyXY
      = .ok [Json.obj [("x", Json.num 3), ("y", Json.num 4)]]
    ∧ polygon_string_to_json polyLeftTop = polygon_string_to_json polyXY
    ∧ polygon_string_to_json polyXY
      = .ok [Json.obj [("x", Json.num 3), ("y", Json.num 4)]] := by
  have hf := eachOk_ok_forall2 process_node nodes out h
  refine ⟨hf.length_eq.symm, ?_, rfl, rfl, rfl, rfl⟩
  intro i h1 h2
  exact (List.forall₂_iff_get.mp hf).2 i h1 h2

/-- Witness for C4 at the `left`/`top` singleton: the loop rewrites the
point to the `x`/`y` form and the two encodings normalize identically. -/
theorem c4_normalization_canonical_and_order_preserving_witness :
    process_node (Json.obj [("left", Json.num 3), ("top", Json.num 4)])
      = .ok (Json.obj [("x", Json.num 3), ("y", Json.num 4)])
    ∧ normalize_polygon polyLeftTop = normalize_polygon polyXY := by
  have h := c4_normalization_canonical_and_order_preserving
    [Json.obj [("left", Json.num 3), ("top", Json.num 4)]]
    [Json.obj [("x", Json.num 3), ("y", Json.num 4)]] rfl
  exact ⟨h.2.1 0 (by decide) (by decide), h.2.2.1⟩

instance : IsTotal DatasetObjectRow (fun a b => strLe a.name b.name = true) :=
  ⟨fun a b => charListLe_total a.name.toList b.name.toList⟩

instance : IsTrans DatasetObjectRow (fun a b => strLe a.name b.name = true) :=
  ⟨fun _ _ _ h1 h2 => charListLe_trans _ _ _ h1 h2⟩

/-- `as_dict` copies the object's id and name into the dict. -/
theorem as_dict_ok_id_name (meta : MetaStore) (o : DatasetObjectRow)
    (d : FileDict) (h : as_dict meta o = .ok d) :
    d.id = o.id ∧ d.name = o.name := by
  unfold as_dict at h
  cases hl : eachOk label_dict_of (labelsOf meta o.id) with
  | error e => rw [hl] at h; cases h
  | ok lds =>
    rw [hl] at h
    cases h
    exact ⟨rfl, rfl⟩

/-- The exclusion predicate of the list loop holds exactly when none of the
object's tag values lies in the exclusion set. -/
theorem excl_pred_true_iff (meta : MetaStore) (oid : Nat)
    (tset : List String) :
    (!((tagsOf meta oid).map (fun t => t.tag)).any
        (fun t => tset.contains t)) = true
      ↔ ∀ t ∈ (tagsOf meta oid).map (fun t => t.tag), t ∉ tset := by
  simp

/-- C6: with a tag filter supplied, List returns the objects ordered by
name and an Object appears in the result exactly when none of its tags is
in the caller-provided comma-separated exclusion set (filter-out
semantics). -/
theorem c6_list_ordered_and_filter_out
    (meta : MetaStore) (s : String) (resp : ListFilesResponse)
    (hs : s ≠ "")
    (hnodup : (meta.objects.map (fun o => o.id)).Nodup)
    (hok : dataset_list_files meta (some s) none none = .ok resp) :
    List.Pairwise (fun a b : FileDict => strLe a.name b.name = true) resp.files
    ∧ ∀ o ∈ meta.objects,
        ((∃ d ∈ resp.files, d.id = o.id)
          ↔ ∀ t ∈ (tagsOf meta o.id).map (fun t => t.tag),
              t ∉ pySplitComma s) := by
  have hbne : (s != "") = true := bne_iff_ne.mpr hs
  unfold dataset_list_files at hok
  simp only [hbne, Bool.true_and, hs, ne_eq, not_false_iff, if_true,
    reduceIte] at hok
  cases hE : eachOk (fun o => as_dict meta o)
      ((List.insertionSort (fun a b : DatasetObjectRow => strLe a.name b.name = true)
        meta.objects).filter (fun o =>
          !((tagsOf meta o.id).map (fun t => t.tag)).any
            (fun t => (pySplitComma s).contains t))) with
  | error e => rw [hE] at hok; cases hok
  | ok files_list =>
    rw [hE] at hok
    cases hok
    have hforall2 := eachOk_ok_forall2 (fun o => as_dict meta o) _ _ hE
    constructor
    · have hsorted : List.Pairwise
          (fun a b : DatasetObjectRow => strLe a.name b.name = true)
          (List.insertionSort (fun a b : DatasetObjectRow => strLe a.name b.name = true)
            meta.objects) :=
        List.sorted_insertionSort _ meta.objects
      have hkeptPW : List.Pairwise
          (fun a b : DatasetObjectRow => strLe a.name b.name = true)
          ((List.insertionSort (fun a b : DatasetObjectRow => strLe a.name b.name = true)
            meta.objects).filter (fun o =>
              !((tagsOf meta o.id).map (fun t => t.tag)).any
                (fun t => (pySplitComma s).contains t))) :=
        List.Pairwise.sublist (List.filter_sublist _) hsorted
      exact forall2_pairwise
        (fun a b a' b' hab ha'b' hP => by
          rcases as_dict_ok_id_name meta a b hab with ⟨_, hn⟩
          rcases as_dict_ok_id_name meta a' b' ha'b' with ⟨_, hn'⟩
          rw [hn, hn']
          exact hP)
        hforall2 hkeptPW
    · intro o ho
      have hperm := List.perm_insertionSort
        (fun a b : DatasetObjectRow => strLe a.name b.name = true) meta.objects
      constructor
      · rintro ⟨d, hd, hid⟩
        rcases forall2_mem_right hforall2 d hd with ⟨o', ho', hR⟩
        rcases List.mem_filter.mp ho' with ⟨ho's, hp'⟩
        have ho'mem : o' ∈ meta.objects := hperm.mem_iff.mp ho's
        have hido' : o'.id = o.id := by
          rcases as_dict_ok_id_name meta o' d hR with ⟨hdid, _⟩
          rw [← hdid, hid]
        have heq : o' = o :=
          List.inj_on_of_nodup_map hnodup ho'mem ho hido'
        subst heq
        exact (excl_pred_true_iff meta o'.id (pySplitComma s)).mp hp'
      · intro hall
        have hmemS : o ∈ List.insertionSort
            (fun a b : DatasetObjectRow => strLe a.name b.name = true) meta.objects :=
          hperm.mem_iff.mpr ho
        have hp : (!((tagsOf meta o.id).map (fun t => t.tag)).any
            (fun t => (pySplitComma s).contains t)) = true :=
          (excl_pred_true_iff meta o.id (pySplitComma s)).mpr hall
        have hkeptmem : o ∈ (List.insertionSort
            (fun a b : DatasetObjectRow => strLe a.name b.name = true)
            meta.objects).filter (fun o =>
              !((tagsOf meta o.id).map (fun t => t.tag)).any
                (fun t => (pySplitComma s).contains t)) :=
          List.mem_filter.mpr ⟨hmemS, hp⟩
        rcases forall2_mem_left hforall2 o hkeptmem with ⟨d, hd, hR⟩
        exact ⟨d, hd, (as_dict_ok_id_name meta o d hR).1⟩

/-- Object "a" (id 1), tagged "A" in `storeAB`. -/
def objRowA : DatasetObjectRow :=
  { id := 1, name := "a", s3_object_name := "ka", content_type := "",
    file_hash_sha1 := "" }

/-- Object "b" (id 2), untagged in `storeAB`. -/
def objRowB : DatasetObjectRow :=
  { id := 2, name := "b", s3_object_name := "kb", content_type := "",
    file_hash_sha1 := "" }

/-- Two objects, the first tagged "A". -/
def storeAB : MetaStore :=
  ⟨[objRowA, objRowB], [{ id := 7, dataset_object_id := 1, tag := "A" }],
   [], [], []⟩

/-- What listing `storeAB` with exclusion set "A" returns: only object
"b". -/
def respAB : ListFilesResponse :=
  { status := "OK",
    files := [{ id := 2, name := "b", s3_object_name := "kb",
                content_type := "", file_hash_sha1 := "", tags := [],
                labels := [] }],
    count := 1, total_count := 2 }

/-- Witness for C6: filtering `storeAB` by "A" keeps exactly the object
whose tag set misses "A", in name order. -/
theorem c6_list_ordered_and_filter_out_witness :
    List.Pairwise (fun a b : FileDict => strLe a.name b.name = true) respAB.files
    ∧ ∀ o ∈ storeAB.objects,
        ((∃ d ∈ respAB.files, d.id = o.id)
          ↔ ∀ t ∈ (tagsOf storeAB o.id).map (fun t => t.tag),
              t ∉ (pySplitComma "A")) :=
  c6_list_ordered_and_filter_out storeAB "A" respAB (by decide) (by decide)
    (by rfl)
